import Mathlib

/-!
Verification of the engineering-paper drawing application (`App` component):
document model (pages, canvas elements, per-page ink rasters), the snapshot
undo/redo history, gesture handlers (drag / resize / rotate / ink stroke),
page add/remove, and project load.

The embedding follows the source closely:

* JS numbers are embedded as `ℚ` (exact arithmetic; the source's float
  rounding is not modelled and all geometric statements are exact).
* `Math.round` is `jround` (round half toward positive infinity, as in JS).
* `Math.cos`, `Math.sin` and the degree-valued `atan2` used by the rotate
  branch are transcendental, so they are parameters of the embedding,
  collected in a `Trig` record; theorems that depend on genuine rotations
  assume the algebraic identities (unit circle, parity) that the real
  functions satisfy.
* JS `Record<string, string>` objects are association lists with the
  object-spread / `delete` semantics (`recordSet`, `recordGet`).
* `uuidv4()` and DOM-supplied data (pointer coordinates, `canvas.toDataURL`)
  are nondeterministic inputs, so handlers take them as arguments.
* The JS history arrays push/pop at the *end*; the Lean lists do the same
  (`l ++ [x]`, `getLast?`, `dropLast`), keeping the source's orientation.
-/

namespace EngPaper

/-- JS `Math.round`: round half toward positive infinity,
`Math.round x = ⌊x + 1/2⌋` (via the executable `Rat.floor`). -/
def jround (q : ℚ) : ℤ := (q + 1 / 2).floor

lemma jround_le_iff (z : ℤ) (q : ℚ) : z ≤ jround q ↔ (z : ℚ) ≤ q + 1 / 2 :=
  Rat.le_floor

/-- `GRID_SIZE = 20` from the source. -/
def GRID_SIZE : ℚ := 20

/-- `ElementType` enum from `types.ts`. -/
inductive ElementType where
  | TEXT
  | RECTANGLE
  | CIRCLE
  | LINE
  | XY_GRAPH
  | XY_GRAPH_1Q
  | IMAGE
deriving DecidableEq, Repr

/-- `CanvasElement` from `types.ts`; optional fields are `Option`s. -/
structure CanvasElement where
  id : String
  pageId : String
  type : ElementType
  x : ℚ
  y : ℚ
  width : ℚ
  height : ℚ
  rotation : Option ℚ := none
  content : Option String := none
  src : Option String := none
  backgroundColor : Option String := none
  borderColor : Option String := none
  borderWidth : Option ℚ := none
  fontSize : Option ℚ := none
  fontFamily : Option String := none
  fontWeight : Option String := none
  color : Option String := none
  textAlign : Option String := none
  opacity : Option ℚ := none
  padding : Option ℚ := none
deriving DecidableEq, Repr

/-- `Page` from `types.ts`. -/
structure Page where
  id : String
deriving DecidableEq, Repr

/-- `SelectionState` from `types.ts`. -/
structure SelectionState where
  id : Option String
  isEditingText : Bool
deriving DecidableEq, Repr

/-- `HistoryState` from the App component: the three collections a history
snapshot stores (`elements`, `markup` keyed by page id, `pages`). -/
structure HistoryState where
  elements : List CanvasElement
  markup : List (String × String)
  pages : List Page
deriving DecidableEq, Repr

/-- The `dragState` record of the App component. `initialElement` is never
null at any `setDragState` call site, so it is embedded unconditionally. -/
structure DragState where
  isDragging : Bool
  isResizing : Bool
  isRotating : Bool
  resizeHandle : Option String
  startX : ℚ
  startY : ℚ
  initialElement : CanvasElement
deriving DecidableEq, Repr

/-- The App component's mutable state relevant to the document engine:
the React `useState` values plus the interaction refs
(`historySnapshot`, `dragInteractedRef`, `isDrawingRef`,
`currentDrawingPageIdRef`, `lastDrawPosRef`).  Pure view chrome
(markup tool/color/width, the delete-page dialog flag) has no effect on any
claimed behaviour and is omitted. -/
structure AppState where
  pages : List Page
  elements : List CanvasElement
  selection : SelectionState
  scale : ℚ
  snapToGrid : Bool
  activePageId : String
  fileName : String
  markupData : List (String × String)
  past : List HistoryState
  future : List HistoryState
  isMarkupMode : Bool
  dragState : Option DragState
  historySnapshot : Option HistoryState
  dragInteracted : Bool
  isDrawing : Bool
  currentDrawingPageId : Option String
  lastDrawPos : Option (ℚ × ℚ)
deriving DecidableEq, Repr

/-- The transcendental functions of JS `Math` used by the handlers, as
parameters of the embedding.  `cos`/`sin` take the angle in *degrees* (the
source's `rotatePoint` converts degrees to radians before calling
`Math.cos`/`Math.sin`; that conversion is folded into these parameters) and
`atan2deg y x` stands for `Math.atan2(y, x) * 180 / Math.PI`. -/
structure Trig where
  cos : ℚ → ℚ
  sin : ℚ → ℚ
  atan2deg : ℚ → ℚ → ℚ

/-- `rotatePoint` from the App component: rotate `(x, y)` about the origin
by `angleDeg` degrees. -/
def rotatePoint (trig : Trig) (x y angleDeg : ℚ) : ℚ × ℚ :=
  let c := trig.cos angleDeg
  let s := trig.sin angleDeg
  (x * c - y * s, x * s + y * c)

/-- JS object lookup `m[k]` on a string-keyed record. -/
def recordGet (m : List (String × String)) (k : String) : Option String :=
  (m.find? (fun kv => kv.1 == k)).map (fun kv => kv.2)

/-- JS object spread update `\x7b...m, [k]: v\x7d`: an existing key keeps its
position, a new key is appended. -/
def recordSet (m : List (String × String)) (k v : String) : List (String × String) :=
  if m.any (fun kv => kv.1 == k) then
    m.map (fun kv => if kv.1 == k then (k, v) else kv)
  else
    m ++ [(k, v)]

/-- JS `delete m[k]` (JS records have no duplicate keys, so dropping every
pair with key `k` is exact). -/
def recordDelete (m : List (String × String)) (k : String) : List (String × String) :=
  m.filter (fun kv => kv.1 != k)

/-- `getCurrentState` from the App component. -/
def getCurrentState (s : AppState) : HistoryState :=
  { elements := s.elements, markup := s.markupData, pages := s.pages }

/-- `saveHistory`: push the current snapshot onto `past`, clear `future`. -/
def saveHistory (s : AppState) : AppState :=
  { s with past := s.past ++ [getCurrentState s], future := [] }

/-- The selection adjustment done inside `handleUndo`: clear the selection
when its id is truthy and absent from the restored element list. -/
def undoSelection (sel : SelectionState) (restored : List CanvasElement) : SelectionState :=
  match sel.id with
  | none => sel
  | some i =>
      if i ≠ "" ∧ restored.find? (fun e => e.id == i) = none then
        { id := none, isEditingText := false }
      else sel

/-- `handleUndo` from the App component (the `restoreState` canvas redraw is
visual only). -/
def handleUndo (s : AppState) : AppState :=
  match s.past.getLast? with
  | none => s
  | some previous =>
      { s with
        future := s.future ++ [getCurrentState s],
        past := s.past.dropLast,
        elements := previous.elements,
        pages := previous.pages,
        markupData := previous.markup,
        selection := undoSelection s.selection previous.elements }

/-- `handleRedo` from the App component. -/
def handleRedo (s : AppState) : AppState :=
  match s.future.getLast? with
  | none => s
  | some next =>
      { s with
        past := s.past ++ [getCurrentState s],
        future := s.future.dropLast,
        elements := next.elements,
        pages := next.pages,
        markupData := next.markup }

/-- One committed mutation in the sense of the history design: `saveHistory`
followed by replacement of the three document collections (the pattern of
`handleAddElement`, `confirmRemovePage`, `handlePropertyChange`, ...). -/
def commitMutation (s : AppState) (d : HistoryState) : AppState :=
  let s1 := saveHistory s
  { s1 with elements := d.elements, pages := d.pages, markupData := d.markup }

/-- A sequence of committed mutations applied in order. -/
def commitAll (s : AppState) (ds : List HistoryState) : AppState :=
  ds.foldl commitMutation s

/-- The stack of snapshots accumulated on the opposite history stack while
popping `l` (most recent first), starting from current snapshot `c`:
popping stores `c`, then each restored snapshot except the last one popped. -/
def popAccum (c : HistoryState) (l : List HistoryState) : List HistoryState :=
  match l with
  | [] => []
  | _ :: tl => (tl ++ [c]).reverse

lemma popAccum_concat (c f : HistoryState) (l : List HistoryState) :
    popAccum c (l ++ [f]) = c :: popAccum f l := by
  cases l <;> simp [popAccum, List.reverse_append]

lemma handleUndo_of_getLast (s : AppState) (previous : HistoryState)
    (h : s.past.getLast? = some previous) :
    handleUndo s =
      { s with
        future := s.future ++ [getCurrentState s],
        past := s.past.dropLast,
        elements := previous.elements,
        pages := previous.pages,
        markupData := previous.markup,
        selection := undoSelection s.selection previous.elements } := by
  unfold handleUndo
  rw [h]

lemma handleUndo_of_empty (s : AppState) (h : s.past = []) : handleUndo s = s := by
  unfold handleUndo
  rw [h]
  rfl

lemma handleRedo_of_getLast (s : AppState) (next : HistoryState)
    (h : s.future.getLast? = some next) :
    handleRedo s =
      { s with
        past := s.past ++ [getCurrentState s],
        future := s.future.dropLast,
        elements := next.elements,
        pages := next.pages,
        markupData := next.markup } := by
  unfold handleRedo
  rw [h]

lemma handleRedo_of_empty (s : AppState) (h : s.future = []) : handleRedo s = s := by
  unfold handleRedo
  rw [h]
  rfl

lemma commitMutation_past (s : AppState) (d : HistoryState) :
    (commitMutation s d).past = s.past ++ [getCurrentState s] := rfl

lemma getCurrentState_commitMutation (s : AppState) (d : HistoryState) :
    getCurrentState (commitMutation s d) = d := rfl

lemma commitMutation_future (s : AppState) (d : HistoryState) :
    (commitMutation s d).future = [] := rfl

lemma commitAll_spec (ds : List HistoryState) : ∀ (s : AppState),
    (commitAll s ds).past = s.past ++ (getCurrentState s :: ds).dropLast
    ∧ getCurrentState (commitAll s ds) = ds.getLastD (getCurrentState s)
    ∧ (commitAll s ds).future = (if ds.isEmpty then s.future else []) := by
  induction ds with
  | nil => intro s; exact ⟨by simp [commitAll], rfl, rfl⟩
  | cons d tl ih =>
      intro s
      have hstep : commitAll s (d :: tl) = commitAll (commitMutation s d) tl := rfl
      obtain ⟨h1, h2, h3⟩ := ih (commitMutation s d)
      refine ⟨?_, ?_, ?_⟩
      · rw [hstep, h1, commitMutation_past, getCurrentState_commitMutation]
        simp [List.append_assoc]
      · rw [hstep, h2, getCurrentState_commitMutation]
        exact (List.getLastD_cons _ _ _).symm
      · rw [hstep, h3, commitMutation_future]
        cases tl <;> simp

lemma undo_iter (front : List HistoryState) :
    ∀ (t : AppState) (base : List HistoryState), t.past = base ++ front →
      (handleUndo^[front.length] t).past = base
      ∧ (handleUndo^[front.length] t).future = t.future ++ popAccum (getCurrentState t) front
      ∧ getCurrentState (handleUndo^[front.length] t) = front.headD (getCurrentState t) := by
  induction front using List.reverseRecOn with
  | nil =>
      intro t base h
      refine ⟨by simpa using h, by simp [popAccum], by simp⟩
  | append_singleton front f ih =>
      intro t base h
      have hlast : t.past.getLast? = some f := by
        rw [h, ← List.append_assoc]
        exact List.getLast?_concat _
      have hu := handleUndo_of_getLast t f hlast
      have hupast : (handleUndo t).past = base ++ front := by
        rw [hu]
        show t.past.dropLast = base ++ front
        rw [h, ← List.append_assoc, List.dropLast_concat]
      have hudoc : getCurrentState (handleUndo t) = f := by rw [hu]; rfl
      have hufut : (handleUndo t).future = t.future ++ [getCurrentState t] := by rw [hu]
      obtain ⟨h1, h2, h3⟩ := ih (handleUndo t) base hupast
      have hiter : handleUndo^[(front ++ [f]).length] t = handleUndo^[front.length] (handleUndo t) := by
        rw [List.length_append, List.length_singleton, Function.iterate_succ_apply]
      refine ⟨by rw [hiter]; exact h1, ?_, ?_⟩
      · rw [hiter, h2, hufut, hudoc, popAccum_concat, List.append_assoc]
        rfl
      · rw [hiter, h3, hudoc]
        cases front <;> simp

lemma redo_iter (back : List HistoryState) :
    ∀ (t : AppState) (fbase : List HistoryState), t.future = fbase ++ back →
      (handleRedo^[back.length] t).future = fbase
      ∧ (handleRedo^[back.length] t).past = t.past ++ popAccum (getCurrentState t) back
      ∧ getCurrentState (handleRedo^[back.length] t) = back.headD (getCurrentState t) := by
  induction back using List.reverseRecOn with
  | nil =>
      intro t fbase h
      refine ⟨by simpa using h, by simp [popAccum], by simp⟩
  | append_singleton back g ih =>
      intro t fbase h
      have hlast : t.future.getLast? = some g := by
        rw [h, ← List.append_assoc]
        exact List.getLast?_concat _
      have hr := handleRedo_of_getLast t g hlast
      have hrfut : (handleRedo t).future = fbase ++ back := by
        rw [hr]
        show t.future.dropLast = fbase ++ back
        rw [h, ← List.append_assoc, List.dropLast_concat]
      have hrdoc : getCurrentState (handleRedo t) = g := by rw [hr]; rfl
      have hrpast : (handleRedo t).past = t.past ++ [getCurrentState t] := by rw [hr]
      obtain ⟨h1, h2, h3⟩ := ih (handleRedo t) fbase hrfut
      have hiter : handleRedo^[(back ++ [g]).length] t = handleRedo^[back.length] (handleRedo t) := by
        rw [List.length_append, List.length_singleton, Function.iterate_succ_apply]
      refine ⟨by rw [hiter]; exact h1, ?_, ?_⟩
      · rw [hiter, h2, hrpast, hrdoc, popAccum_concat, List.append_assoc]
        rfl
      · rw [hiter, h3, hrdoc]
        cases back <;> simp

/-- C1: undo/redo inverse law over the history stacks.  For every state and
every sequence of `n` committed mutations (each pushing the pre-mutation
snapshot onto `past` and clearing `future`), `n` undos restore the exact
pre-first-mutation document (elements, pages, ink map, by deep equality) and
`n` redos after that restore the exact post-last-mutation document; undo is
a no-op on an empty `past` and redo is a no-op on an empty `future`. -/
theorem undo_redo_inverse (s : AppState) (ds : List HistoryState) :
    (getCurrentState (handleUndo^[ds.length] (commitAll s ds)) = getCurrentState s
      ∧ getCurrentState (handleRedo^[ds.length] (handleUndo^[ds.length] (commitAll s ds)))
          = getCurrentState (commitAll s ds))
    ∧ (s.past = [] → handleUndo s = s)
    ∧ (s.future = [] → handleRedo s = s) := by
  refine ⟨?_, handleUndo_of_empty s, handleRedo_of_empty s⟩
  obtain ⟨hpast, hdoc, hfut⟩ := commitAll_spec ds s
  have hlen : ((getCurrentState s :: ds).dropLast).length = ds.length := by
    simp
  have hiter := undo_iter ((getCurrentState s :: ds).dropLast) (commitAll s ds) s.past hpast
  rw [hlen] at hiter
  obtain ⟨hu_past, hu_fut, hu_doc⟩ := hiter
  cases ds with
  | nil => exact ⟨hu_doc, hu_doc⟩
  | cons d tl =>
      have hchain : (getCurrentState s :: d :: tl).dropLast
          = getCurrentState s :: (d :: tl).dropLast := rfl
      constructor
      · rw [hu_doc, hchain]
        rfl
      · -- redo phase
        have hfut0 : (commitAll s (d :: tl)).future = [] := by
          simpa using hfut
        have hback : (handleUndo^[(d :: tl).length] (commitAll s (d :: tl))).future
            = [] ++ ((d :: tl).dropLast ++ [getCurrentState (commitAll s (d :: tl))]).reverse := by
          rw [hu_fut, hfut0, hchain]
          rfl
        have hlenb : (((d :: tl).dropLast ++ [getCurrentState (commitAll s (d :: tl))]).reverse).length
            = (d :: tl).length := by
          simp
        have hred := redo_iter
          (((d :: tl).dropLast ++ [getCurrentState (commitAll s (d :: tl))]).reverse)
          (handleUndo^[(d :: tl).length] (commitAll s (d :: tl))) [] hback
        rw [hlenb] at hred
        obtain ⟨-, -, hr_doc⟩ := hred
        rw [hr_doc, List.reverse_append]
        rfl

/-- `handleUpdateElement` from the App component: merge updated fields into
the element with the given id (each call site passes its field updates). -/
def handleUpdateElement (s : AppState) (id : String) (upd : CanvasElement → CanvasElement) : AppState :=
  { s with elements := s.elements.map (fun el => if el.id == id then upd el else el) }

/-- `handlePointerDownElement`: select and start a drag gesture (or enter
text editing on a double click on a text element).  `isDoubleClick` stands
for the `lastClickRef` test (same element id within 300 ms); `coords` is the
pointer position in page-local unscaled coordinates (`getPointerCoords`). -/
def handlePointerDownElement (s : AppState) (element : CanvasElement) (isDoubleClick : Bool)
    (coords : ℚ × ℚ) : AppState :=
  if s.isMarkupMode then s
  else
    let s0 := { s with activePageId := element.pageId }
    if s0.selection.isEditingText = true ∧ s0.selection.id = some element.id then s0
    else if isDoubleClick ∧ element.type = ElementType.TEXT then
      { saveHistory s0 with
        selection := { id := some element.id, isEditingText := true },
        dragState := none }
    else
      { s0 with
        selection := { id := some element.id, isEditingText := false },
        historySnapshot := some (getCurrentState s0),
        dragInteracted := false,
        dragState := some { isDragging := true, isResizing := false, isRotating := false,
                            resizeHandle := none, startX := coords.1, startY := coords.2,
                            initialElement := element } }

/-- `handlePointerDownResize`: start a resize gesture on a corner handle. -/
def handlePointerDownResize (s : AppState) (handle : String) (element : CanvasElement)
    (coords : ℚ × ℚ) : AppState :=
  { s with
    activePageId := element.pageId,
    historySnapshot := some (getCurrentState s),
    dragInteracted := false,
    dragState := some { isDragging := false, isRotating := false, isResizing := true,
                        resizeHandle := some handle, startX := coords.1, startY := coords.2,
                        initialElement := element } }

/-- `handlePointerDownRotate`: start a rotate gesture. -/
def handlePointerDownRotate (s : AppState) (element : CanvasElement) (coords : ℚ × ℚ) : AppState :=
  { s with
    activePageId := element.pageId,
    historySnapshot := some (getCurrentState s),
    dragInteracted := false,
    dragState := some { isDragging := false, isResizing := false, isRotating := true,
                        resizeHandle := none, startX := coords.1, startY := coords.2,
                        initialElement := element } }

/-- The new geometry produced by one resize move. -/
structure Geom where
  x : ℚ
  y : ℚ
  w : ℚ
  h : ℚ
deriving DecidableEq, Repr

/-- The corner-handle sign table mapping `(dW, dH)` to the local center
shift; it appears twice in the source (before and, when snapping, after the
grid rounding) with an identical body. -/
def shiftFor (handle : Option String) (dW dH : ℚ) : ℚ × ℚ :=
  match handle with
  | some "se" => (dW / 2, dH / 2)
  | some "sw" => (-dW / 2, dH / 2)
  | some "ne" => (dW / 2, -dH / 2)
  | some "nw" => (-dW / 2, -dH / 2)
  | _ => (0, 0)

/-- The width delta selected by the corner-handle switch of the resize
branch, applied to the local pointer delta. -/
def deltaWFor (handle : Option String) (localDelta : ℚ × ℚ) : ℚ :=
  match handle with
  | some "se" => localDelta.1
  | some "sw" => -localDelta.1
  | some "ne" => localDelta.1
  | some "nw" => -localDelta.1
  | _ => 0

/-- The height delta selected by the corner-handle switch of the resize
branch, applied to the local pointer delta. -/
def deltaHFor (handle : Option String) (localDelta : ℚ × ℚ) : ℚ :=
  match handle with
  | some "se" => localDelta.2
  | some "sw" => localDelta.2
  | some "ne" => -localDelta.2
  | some "nw" => -localDelta.2
  | _ => 0

lemma deltaWFor_se (ld : ℚ × ℚ) : deltaWFor (some "se") ld = ld.1 := rfl

lemma deltaHFor_se (ld : ℚ × ℚ) : deltaHFor (some "se") ld = ld.2 := rfl

lemma shiftFor_se (dW dH : ℚ) : shiftFor (some "se") dW dH = (dW / 2, dH / 2) := rfl

/-- The resize branch of `handlePointerMove`: convert the world pointer
delta to the object's local frame, derive `(dW, dH)` from the handle, clamp
to the minimum size, recompute the center shift, optionally snap the final
width/height to grid multiples (recomputing `dW`, `dH` and the shift from
the snapped values), and rotate the shift back to world space. -/
def resizeGeom (trig : Trig) (snapToGrid : Bool) (initial : CanvasElement)
    (handle : Option String) (deltaX deltaY : ℚ) : Geom :=
  let localDelta := rotatePoint trig deltaX deltaY (-(initial.rotation.getD 0))
  let MIN_SIZE := if snapToGrid then GRID_SIZE else 20
  let dW0 : ℚ := deltaWFor handle localDelta
  let dH0 : ℚ := deltaHFor handle localDelta
  let dW1 := if initial.width + dW0 < MIN_SIZE then MIN_SIZE - initial.width else dW0
  let dH1 := if initial.height + dH0 < MIN_SIZE then MIN_SIZE - initial.height else dH0
  let finalW1 := initial.width + dW1
  let finalH1 := initial.height + dH1
  let snapped :=
    if snapToGrid then
      let fW := ((jround (finalW1 / GRID_SIZE) : ℚ)) * GRID_SIZE
      let fH := ((jround (finalH1 / GRID_SIZE) : ℚ)) * GRID_SIZE
      (fW, fH, shiftFor handle (fW - initial.width) (fH - initial.height))
    else
      (finalW1, finalH1, shiftFor handle dW1 dH1)
  let finalW := snapped.1
  let finalH := snapped.2.1
  let cShift := snapped.2.2
  let cx := initial.x + initial.width / 2
  let cy := initial.y + initial.height / 2
  let shiftWorld := rotatePoint trig cShift.1 cShift.2 (initial.rotation.getD 0)
  { x := (cx + shiftWorld.1) - finalW / 2,
    y := (cy + shiftWorld.2) - finalH / 2,
    w := finalW, h := finalH }

/-- The global `handlePointerMove` listener: guarded on an active drag state
and a truthy selected id, it marks the gesture as interacted and dispatches
to the drag / rotate / resize branch.  `coords` is the pointer position in
page-local unscaled coordinates. -/
def handlePointerMove (trig : Trig) (s : AppState) (coords : ℚ × ℚ) : AppState :=
  match s.dragState, s.selection.id with
  | some ds, some selId =>
      if selId = "" then s
      else
        let s0 := { s with dragInteracted := true }
        let initial := ds.initialElement
        let deltaX := coords.1 - ds.startX
        let deltaY := coords.2 - ds.startY
        let snap : ℚ → ℚ := fun v =>
          if s.snapToGrid then ((jround (v / GRID_SIZE) : ℚ)) * GRID_SIZE else v
        if ds.isDragging then
          handleUpdateElement s0 selId
            (fun el => { el with x := snap (initial.x + deltaX), y := snap (initial.y + deltaY) })
        else if ds.isRotating then
          let centerX := initial.x + initial.width / 2
          let centerY := initial.y + initial.height / 2
          let angle0 := trig.atan2deg (coords.2 - centerY) (coords.1 - centerX) + 90
          let angle := if s.snapToGrid then ((jround (angle0 / 15) : ℚ)) * 15 else angle0
          handleUpdateElement s0 selId (fun el => { el with rotation := some angle })
        else if ds.isResizing then
          let g := resizeGeom trig s.snapToGrid initial ds.resizeHandle deltaX deltaY
          handleUpdateElement s0 selId
            (fun el => { el with x := g.x, y := g.y, width := g.w, height := g.h })
        else s0
  | _, _ => s

/-- The global `handlePointerUp` listener: push the gesture-start snapshot
(and clear `future`) only when a move occurred during the gesture, then
clear the drag state. -/
def handlePointerUp (s : AppState) : AppState :=
  match s.dragState, s.historySnapshot with
  | some _, some snap =>
      if s.dragInteracted then
        { s with past := s.past ++ [snap], future := [], dragState := none }
      else
        { s with dragState := none }
  | _, _ => { s with dragState := none }

/-- `handleAddElement` from the App component; `newId` stands for the
`uuidv4()` result. -/
def handleAddElement (s : AppState) (newId : String) (t : ElementType) : AppState :=
  if s.isMarkupMode then s
  else
    let s1 := saveHistory s
    let isGraph := t = ElementType.XY_GRAPH ∨ t = ElementType.XY_GRAPH_1Q
    let newElement : CanvasElement :=
      { id := newId,
        pageId := s.activePageId,
        type := t,
        x := 100,
        y := 100,
        width := if t = ElementType.LINE ∨ isGraph then 200 else 160,
        height := if t = ElementType.LINE then 10 else if isGraph then 200 else 100,
        rotation := some 0,
        backgroundColor := some "transparent",
        borderColor := some "#2f4f4f",
        borderWidth := some 2,
        content := if t = ElementType.TEXT then some "Text Box" else none,
        fontSize := some 24,
        fontFamily := some "Patrick Hand",
        fontWeight := some "400",
        color := some "#000000",
        textAlign := some "left",
        padding := some 8 }
    { s1 with elements := s1.elements ++ [newElement],
              selection := { id := some newId, isEditingText := false } }

/-- The toolbar's `onToggleSnap` callback. -/
def toggleSnap (s : AppState) : AppState :=
  { s with snapToGrid := !s.snapToGrid }

/-- `handlePointerDownMarkup`: start an ink stroke.  `canvasExists` stands
for the DOM canvas (and its 2d context) being available for the page. -/
def handlePointerDownMarkup (s : AppState) (pageId : String) (coords : ℚ × ℚ)
    (canvasExists : Bool) : AppState :=
  if s.isMarkupMode = false then s
  else
    let s1 := { s with activePageId := pageId,
                       historySnapshot := some (getCurrentState s),
                       currentDrawingPageId := some pageId }
    if canvasExists = false then s1
    else { s1 with isDrawing := true, lastDrawPos := some coords }

/-- `handlePointerUpMarkup`: end an ink stroke.  When a stroke was active it
always pushes the stroke-start snapshot onto `past` and clears `future`,
and (when the canvas still exists) stores its serialized raster — `dataURL`
stands for `canvas.toDataURL()`, `none` for a missing canvas. -/
def handlePointerUpMarkup (s : AppState) (dataURL : Option String) : AppState :=
  if s.isDrawing = false then s
  else
    let s1 := { s with isDrawing := false, lastDrawPos := none }
    match s1.currentDrawingPageId, s1.historySnapshot with
    | some pageId, some snap =>
        if pageId ≠ "" then
          let s2 := { s1 with past := s1.past ++ [snap], future := [] }
          let s3 :=
            match dataURL with
            | some url => { s2 with markupData := recordSet s2.markupData pageId url }
            | none => s2
          { s3 with currentDrawingPageId := none }
        else { s1 with currentDrawingPageId := none }
    | _, _ => { s1 with currentDrawingPageId := none }

/-- JS `Array.prototype.findIndex`: first matching index, `-1` if none. -/
def findIndexJS {α : Type} (p : α → Bool) : List α → ℤ
  | [] => -1
  | a :: l =>
      if p a then 0
      else if findIndexJS p l < 0 then -1 else findIndexJS p l + 1

/-- `handleAddPage` from the App component; `newPageId` stands for the
`uuidv4()` result (the scroll-into-view is visual only). -/
def handleAddPage (s : AppState) (newPageId : String) : AppState :=
  let s1 := saveHistory s
  { s1 with pages := s1.pages ++ [{ id := newPageId }], activePageId := newPageId }

/-- `confirmRemovePage` from the App component: refuse when at most one page
remains; otherwise commit history, drop the active page, reassign the
active page id to `newPages[max 0 (index-1)]`, and cascade-delete the
removed page's elements and ink entry.  (The JS indexing
`newPages[...].id` would crash out of bounds; the sentinel page id `""`
stands for that never-taken case.) -/
def confirmRemovePage (s : AppState) : AppState :=
  if s.pages.length ≤ 1 then s
  else
    let s1 := saveHistory s
    let pageToRemove := s.activePageId
    let index := findIndexJS (fun p => p.id == pageToRemove) s1.pages
    let newPages := s1.pages.filter (fun p => p.id != pageToRemove)
    let newActiveId := (newPages.getD (max 0 (index - 1)).toNat { id := "" }).id
    { s1 with
      pages := newPages,
      activePageId := newActiveId,
      elements := s1.elements.filter (fun el => el.pageId != pageToRemove),
      markupData := recordDelete s1.markupData pageToRemove }

/-- The metadata block of a `.engpaper` project file (only the field the
load handler reads). -/
structure ProjectMeta where
  fileName : Option String
deriving DecidableEq, Repr

/-- A parsed project file, restricted to the fields `handleLoadProject`
reads; `Option` models JSON fields that are absent or null. -/
structure ProjectFile where
  pages : Option (List Page)
  elements : Option (List CanvasElement)
  markupData : Option (List (String × String))
  snapToGrid : Option Bool
  metadata : Option ProjectMeta
deriving DecidableEq, Repr

/-- `handleLoadProject` from the App component.  `parsed` is the result of
`JSON.parse` on the file's text (`none` when parsing throws), and
`fileBaseName` stands for `file.name` with the `.engpaper`/`.json`
extension stripped.  The returned flag is `true` exactly when the handler's
`catch` runs, i.e. the user-visible failure `alert` is shown. -/
def handleLoadProject (s : AppState) (parsed : Option ProjectFile)
    (fileBaseName : String) : AppState × Bool :=
  match parsed with
  | none => (s, true)
  | some project =>
      match project.pages, project.elements with
      | some pgs, some els =>
          let s1 := saveHistory s
          let s2 :=
            { s1 with
              pages := pgs,
              elements := els,
              markupData := project.markupData.getD [],
              snapToGrid := project.snapToGrid.getD false,
              fileName :=
                match project.metadata.bind (fun m => m.fileName) with
                | some n => if n ≠ "" then n else fileBaseName
                | none => fileBaseName,
              selection := { id := none, isEditingText := false } }
          let s3 :=
            match pgs.head? with
            | some p => { s2 with activePageId := p.id }
            | none => s2
          (s3, false)
      | _, _ => (s, true)

/-- Concrete state fixture for the C1 witness: empty history stacks. -/
def w1state : AppState :=
  { pages := [{ id := "p1" }], elements := [], selection := { id := none, isEditingText := false },
    scale := 1, snapToGrid := false, activePageId := "p1", fileName := "f",
    markupData := [], past := [], future := [],
    isMarkupMode := false, dragState := none, historySnapshot := none,
    dragInteracted := false, isDrawing := false, currentDrawingPageId := none,
    lastDrawPos := none }

/-- Concrete mutation fixture for the C1 witness. -/
def w1snap : HistoryState :=
  { elements := [], markup := [("p1", "ink")], pages := [{ id := "p1" }] }

/-- Witness for C1 at a concrete state: one committed mutation, one undo,
one redo, and the two no-op clauses discharged on empty stacks. -/
theorem undo_redo_inverse_witness :
    getCurrentState (handleUndo^[[w1snap].length] (commitAll w1state [w1snap])) = getCurrentState w1state
    ∧ getCurrentState
        (handleRedo^[[w1snap].length] (handleUndo^[[w1snap].length] (commitAll w1state [w1snap])))
        = getCurrentState (commitAll w1state [w1snap])
    ∧ handleUndo w1state = w1state ∧ handleRedo w1state = w1state :=
  ⟨(undo_redo_inverse w1state [w1snap]).1.1,
    (undo_redo_inverse w1state [w1snap]).1.2,
    (undo_redo_inverse w1state [w1snap]).2.1 rfl,
    (undo_redo_inverse w1state [w1snap]).2.2 rfl⟩

/-- C9: undo and redo replace only the three history-snapshot collections;
the viewport scale, the snap-to-grid flag, the active page id and the file
name are untouched by either, for every starting state (in particular also
when the restored page list no longer contains the active page id). -/
theorem undo_redo_preserve_view_state (s : AppState) :
    ((handleUndo s).scale = s.scale ∧ (handleUndo s).snapToGrid = s.snapToGrid ∧
      (handleUndo s).activePageId = s.activePageId ∧ (handleUndo s).fileName = s.fileName) ∧
    ((handleRedo s).scale = s.scale ∧ (handleRedo s).snapToGrid = s.snapToGrid ∧
      (handleRedo s).activePageId = s.activePageId ∧ (handleRedo s).fileName = s.fileName) := by
  constructor
  · match h : s.past.getLast? with
    | none => unfold handleUndo; rw [h]; exact ⟨rfl, rfl, rfl, rfl⟩
    | some previous => rw [handleUndo_of_getLast s previous h]; exact ⟨rfl, rfl, rfl, rfl⟩
  · match h : s.future.getLast? with
    | none => unfold handleRedo; rw [h]; exact ⟨rfl, rfl, rfl, rfl⟩
    | some next => rw [handleRedo_of_getLast s next h]; exact ⟨rfl, rfl, rfl, rfl⟩

/-- C10: redo never modifies the selection, even when the selected id is
absent from the restored element set — unlike undo, which clears the
selection exactly in that situation (for a truthy selected id). -/
theorem redo_preserves_selection (s : AppState) :
    (handleRedo s).selection = s.selection ∧
    (∀ previous, s.past.getLast? = some previous →
      ∀ i, s.selection.id = some i → i ≠ "" →
        previous.elements.find? (fun e => e.id == i) = none →
        (handleUndo s).selection = { id := none, isEditingText := false }) := by
  constructor
  · match h : s.future.getLast? with
    | none => unfold handleRedo; rw [h]
    | some next => rw [handleRedo_of_getLast s next h]
  · intro previous hprev i hi hne hfind
    rw [handleUndo_of_getLast s previous hprev]
    show undoSelection s.selection previous.elements = _
    unfold undoSelection
    rw [hi]
    simp [hne, hfind]

/-- Concrete snapshot fixture for the C10 witness. -/
def w10snap : HistoryState := { elements := [], markup := [], pages := [{ id := "p1" }] }

/-- Concrete state fixture for the C10 witness: a selected id `"a"` that is
absent from the restored (empty) element list, with one undo step and one
redo step available. -/
def w10state : AppState :=
  { pages := [{ id := "p1" }], elements := [], selection := { id := some "a", isEditingText := false },
    scale := 1, snapToGrid := false, activePageId := "p1", fileName := "f",
    markupData := [], past := [w10snap], future := [w10snap],
    isMarkupMode := false, dragState := none, historySnapshot := none,
    dragInteracted := false, isDrawing := false, currentDrawingPageId := none,
    lastDrawPos := none }

/-- Witness for C10 at a concrete state. -/
theorem redo_preserves_selection_witness :
    (handleRedo w10state).selection = w10state.selection ∧
    (handleUndo w10state).selection = { id := none, isEditingText := false } :=
  ⟨(redo_preserves_selection w10state).1,
    (redo_preserves_selection w10state).2 w10snap rfl "a" rfl (by decide) rfl⟩

lemma handlePointerUp_proj (s : AppState) :
    (handlePointerUp s).elements = s.elements
    ∧ (handlePointerUp s).selection = s.selection
    ∧ (handlePointerUp s).snapToGrid = s.snapToGrid
    ∧ (handlePointerUp s).dragState = none := by
  unfold handlePointerUp
  cases hint : s.dragInteracted <;> cases hd : s.dragState <;> cases hs : s.historySnapshot <;>
    exact ⟨rfl, rfl, rfl, rfl⟩

lemma handlePointerMove_proj (trig : Trig) (s : AppState) (coords : ℚ × ℚ) :
    (handlePointerMove trig s coords).selection = s.selection
    ∧ (handlePointerMove trig s coords).snapToGrid = s.snapToGrid
    ∧ (handlePointerMove trig s coords).dragState = s.dragState
    ∧ (handlePointerMove trig s coords).historySnapshot = s.historySnapshot
    ∧ (handlePointerMove trig s coords).past = s.past
    ∧ (handlePointerMove trig s coords).future = s.future := by
  unfold handlePointerMove
  split
  · rename_i ds selId hds hsel
    by_cases he : selId = ""
    · rw [if_pos he]
      exact ⟨rfl, rfl, rfl, rfl, rfl, rfl⟩
    · rw [if_neg he]
      cases hb : ds.isDragging <;> cases hr : ds.isRotating <;> cases hz : ds.isResizing <;>
        exact ⟨rfl, rfl, rfl, rfl, rfl, rfl⟩
  · exact ⟨rfl, rfl, rfl, rfl, rfl, rfl⟩

/-- When the gesture interacted and both the drag state and the snapshot are
present, pointer-up pushes the snapshot and clears `future`. -/
lemma handlePointerUp_interacted (s : AppState) (ds : DragState) (snap : HistoryState)
    (h1 : s.dragState = some ds) (h2 : s.historySnapshot = some snap)
    (h3 : s.dragInteracted = true) :
    handlePointerUp s = { s with past := s.past ++ [snap], future := [], dragState := none } := by
  unfold handlePointerUp
  rw [h1, h2]
  simp [h3]

/-- When the gesture never interacted, pointer-up leaves `past` and `future`
unchanged. -/
lemma handlePointerUp_not_interacted (s : AppState) (h : s.dragInteracted = false) :
    (handlePointerUp s).past = s.past ∧ (handlePointerUp s).future = s.future := by
  unfold handlePointerUp
  rw [h]
  cases hd : s.dragState <;> cases hs : s.historySnapshot <;> exact ⟨rfl, rfl⟩

/-- After a pointer-move with an active drag state and a truthy selected id,
the gesture counts as interacted. -/
lemma handlePointerMove_interacted (trig : Trig) (s : AppState) (coords : ℚ × ℚ)
    (ds : DragState) (selId : String)
    (h1 : s.dragState = some ds) (h2 : s.selection.id = some selId) (h3 : selId ≠ "") :
    (handlePointerMove trig s coords).dragInteracted = true := by
  unfold handlePointerMove
  rw [h1, h2]
  dsimp only
  rw [if_neg h3]
  cases hb : ds.isDragging <;> cases hr : ds.isRotating <;> cases hz : ds.isResizing <;> rfl

/-- A default document state: one page, no elements, no ink, no history. -/
def baseState : AppState :=
  { pages := [{ id := "p1" }], elements := [], selection := { id := none, isEditingText := false },
    scale := 1, snapToGrid := false, activePageId := "p1", fileName := "Untitled Project",
    markupData := [], past := [], future := [],
    isMarkupMode := false, dragState := none, historySnapshot := none,
    dragInteracted := false, isDrawing := false, currentDrawingPageId := none,
    lastDrawPos := none }

/-- C8: loading a file whose content fails to parse, or parses without the
required `pages` or `elements` fields, shows the user-visible failure alert
and leaves the entire in-memory state (pages, elements, ink map, snap flag,
file name, selection, history stacks) exactly unchanged — load is
all-or-nothing. -/
theorem load_failure_all_or_nothing (s : AppState) (parsed : Option ProjectFile) (name : String)
    (hbad : parsed = none ∨ ∃ p, parsed = some p ∧ (p.pages = none ∨ p.elements = none)) :
    handleLoadProject s parsed name = (s, true) := by
  rcases hbad with h | ⟨p, hp, hfield⟩
  · subst h
    rfl
  · subst hp
    simp only [handleLoadProject]
    rcases hfield with h1 | h2
    · rw [h1]
    · rw [h2]
      cases p.pages <;> rfl

/-- Witness for C8 at a concrete state and input. -/
theorem load_failure_all_or_nothing_witness :
    handleLoadProject baseState none "f" = (baseState, true) :=
  load_failure_all_or_nothing baseState none "f" (Or.inl rfl)

/-- A syntactically valid project file whose `pages` array is present but
empty — `![]` is `false` in JS, so it passes the load validation. -/
def emptyPagesProject : ProjectFile :=
  { pages := some [], elements := some [], markupData := none, snapToGrid := none,
    metadata := none }

/-- C2 (failing input): loading a project file with `pages: []` passes the
validation (an empty array is truthy in JS) and replaces a non-empty page
list with the empty one, leaving the document with zero pages. -/
theorem load_empty_pages_empties_document :
    baseState.pages ≠ []
    ∧ ((handleLoadProject baseState (some emptyPagesProject) "f").1).pages = [] := by
  exact ⟨by decide, rfl⟩

/-- The element `handleAddElement` constructs for a `RECTANGLE` on page
`"p1"` with fresh id `"el1"`. -/
def rectElement : CanvasElement :=
  { id := "el1", pageId := "p1", type := ElementType.RECTANGLE,
    x := 100, y := 100, width := 160, height := 100,
    rotation := some 0, backgroundColor := some "transparent",
    borderColor := some "#2f4f4f", borderWidth := some 2,
    fontSize := some 24, fontFamily := some "Patrick Hand", fontWeight := some "400",
    color := some "#000000", textAlign := some "left", padding := some 8 }

/-- A trivial instantiation of the `Math` parameters (only used on gestures
whose outcome does not depend on trigonometry). -/
def trigZero : Trig :=
  { cos := fun _ => 1, sin := fun _ => 0, atan2deg := fun _ _ => 0 }

/-- The drag branch of `handlePointerMove`, characterised: each element with
the selected id is translated to the snapped raw position computed from the
gesture's initial element and the pointer delta. -/
lemma handlePointerMove_drag (trig : Trig) (s : AppState) (coords : ℚ × ℚ)
    (ds : DragState) (selId : String)
    (h1 : s.dragState = some ds) (h2 : s.selection.id = some selId) (h3 : selId ≠ "")
    (h4 : ds.isDragging = true) :
    (handlePointerMove trig s coords).elements
      = s.elements.map (fun el =>
          if el.id == selId then
            { el with
              x := if s.snapToGrid then
                     ((jround ((ds.initialElement.x + (coords.1 - ds.startX)) / GRID_SIZE) : ℚ)) * GRID_SIZE
                   else ds.initialElement.x + (coords.1 - ds.startX),
              y := if s.snapToGrid then
                     ((jround ((ds.initialElement.y + (coords.2 - ds.startY)) / GRID_SIZE) : ℚ)) * GRID_SIZE
                   else ds.initialElement.y + (coords.2 - ds.startY) }
          else el) := by
  unfold handlePointerMove
  split
  · rename_i ds' selId' hds hsel
    rw [h1] at hds
    rw [h2] at hsel
    obtain rfl : ds = ds' := by injection hds
    obtain rfl : selId = selId' := by injection hsel
    rw [if_neg h3, if_pos h4]
    rfl
  · rename_i hfail
    exact (hfail ds selId h1 h2).elim

/-- C7: dragging translates by the raw pointer delta and then snaps each
coordinate independently.  A newly added Rectangle has geometry
`(100, 100, 160, 100, rotation 0)`; dragging it by world delta `(50, 0)`
with snapping off yields `(150, 100, 160, 100)`; then, with snapping
enabled at grid size 20, dragging by `(53, 0)` yields `x = 200` (the
multiple of 20 nearest to 203) with width, height and rotation unchanged
throughout. -/
theorem drag_snap_scenario :
    (handleAddElement baseState "el1" ElementType.RECTANGLE).elements = [rectElement]
    ∧ (handlePointerUp (handlePointerMove trigZero
        (handlePointerDownElement (handleAddElement baseState "el1" ElementType.RECTANGLE)
          rectElement false (0, 0)) (50, 0))).elements
        = [{ rectElement with x := 150 }]
    ∧ (handlePointerUp (handlePointerMove trigZero
        (handlePointerDownElement
          (toggleSnap (handlePointerUp (handlePointerMove trigZero
            (handlePointerDownElement (handleAddElement baseState "el1" ElementType.RECTANGLE)
              rectElement false (0, 0)) (50, 0))))
          { rectElement with x := 150 } false (0, 0)) (53, 0))).elements
        = [{ rectElement with x := 200 }] := by
  have hmove1 : (handlePointerMove trigZero
      (handlePointerDownElement (handleAddElement baseState "el1" ElementType.RECTANGLE)
        rectElement false (0, 0)) (50, 0)).elements = [{ rectElement with x := 150 }] := by
    rw [handlePointerMove_drag trigZero _ (50, 0) _ "el1" rfl rfl (by decide) rfl,
      show (handlePointerDownElement (handleAddElement baseState "el1" ElementType.RECTANGLE)
          rectElement false (0, 0)).elements = [rectElement] from rfl,
      show (handlePointerDownElement (handleAddElement baseState "el1" ElementType.RECTANGLE)
          rectElement false (0, 0)).snapToGrid = false from rfl]
    norm_num [rectElement]
  have hmove2 : (handlePointerMove trigZero
      (handlePointerDownElement
        (toggleSnap (handlePointerUp (handlePointerMove trigZero
          (handlePointerDownElement (handleAddElement baseState "el1" ElementType.RECTANGLE)
            rectElement false (0, 0)) (50, 0))))
        { rectElement with x := 150 } false (0, 0)) (53, 0)).elements
      = [{ rectElement with x := 200 }] := by
    rw [handlePointerMove_drag trigZero _ (53, 0) _ "el1" rfl rfl (by decide) rfl,
      show (handlePointerDownElement
          (toggleSnap (handlePointerUp (handlePointerMove trigZero
            (handlePointerDownElement (handleAddElement baseState "el1" ElementType.RECTANGLE)
              rectElement false (0, 0)) (50, 0))))
          { rectElement with x := 150 } false (0, 0)).elements
        = (handlePointerMove trigZero
            (handlePointerDownElement (handleAddElement baseState "el1" ElementType.RECTANGLE)
              rectElement false (0, 0)) (50, 0)).elements from rfl,
      hmove1,
      show (handlePointerDownElement
          (toggleSnap (handlePointerUp (handlePointerMove trigZero
            (handlePointerDownElement (handleAddElement baseState "el1" ElementType.RECTANGLE)
              rectElement false (0, 0)) (50, 0))))
          { rectElement with x := 150 } false (0, 0)).snapToGrid = true from rfl]
    norm_num [rectElement, jround, GRID_SIZE, Rat.floor_def']
  exact ⟨rfl, by rw [(handlePointerUp_proj _).1, hmove1], by rw [(handlePointerUp_proj _).1, hmove2]⟩

lemma handlePointerDownElement_main (s : AppState) (el : CanvasElement) (p : ℚ × ℚ)
    (hm : s.isMarkupMode = false)
    (hedit : ¬(s.selection.isEditingText = true ∧ s.selection.id = some el.id)) :
    handlePointerDownElement s el false p
      = { s with activePageId := el.pageId,
                 selection := { id := some el.id, isEditingText := false },
                 historySnapshot := some (getCurrentState s),
                 dragInteracted := false,
                 dragState := some { isDragging := true, isResizing := false, isRotating := false,
                                     resizeHandle := none, startX := p.1, startY := p.2,
                                     initialElement := el } } := by
  unfold handlePointerDownElement
  simp only [hm, Bool.false_eq_true, if_false, false_and, hedit]
  try rfl

lemma handlePointerDownMarkup_main (s : AppState) (pid : String) (p : ℚ × ℚ)
    (hm : s.isMarkupMode = true) :
    handlePointerDownMarkup s pid p true
      = { s with activePageId := pid,
                 historySnapshot := some (getCurrentState s),
                 currentDrawingPageId := some pid,
                 isDrawing := true,
                 lastDrawPos := some p } := by
  unfold handlePointerDownMarkup
  simp only [hm, Bool.true_eq_false, if_false]
  try rfl

lemma handlePointerUp_past_of_no_dragState (s : AppState) (h : s.dragState = none) :
    (handlePointerUp s).past = s.past := by
  unfold handlePointerUp
  rw [h]

/-- The markup-mode fixture for C3: markup mode on, empty history. -/
def inkState : AppState := { baseState with isMarkupMode := true }

/-- C3 (counterexample): in ink markup mode, a pointer-down immediately
followed by a pointer-up at the same coordinates (no move) still pushes one
entry onto `past` — `handlePointerUpMarkup` commits unconditionally once a
stroke is active, so the claimed no-op law fails for ink strokes. -/
theorem noop_ink_gesture_pushes_history :
    ((handlePointerUpMarkup (handlePointerDownMarkup inkState "p1" (0, 0) true)
        (some "url")).past).length ≠ inkState.past.length := by
  decide

/-- C3 (amended): an object gesture (drag / resize / rotate) pushes its
gesture-start snapshot onto `past` (and clears `future`) at gesture end
exactly when at least one pointer-move event occurred during the gesture —
regardless of whether the move changed anything — so a pointer-down
immediately followed by a pointer-up leaves `past` unchanged for object
gestures; an ink stroke, however, always pushes its stroke-start snapshot at
stroke end, even with no intervening move. -/
theorem gesture_history_push_amended (trig : Trig) (s : AppState) (el : CanvasElement)
    (handle : String) (selId pageId : String) (dataURL : Option String) (p q : ℚ × ℚ)
    (hidle : s.dragState = none) :
    ((handlePointerUp (handlePointerDownElement s el false p)).past = s.past
      ∧ (handlePointerUp (handlePointerDownResize s handle el p)).past = s.past
      ∧ (handlePointerUp (handlePointerDownRotate s el p)).past = s.past)
    ∧ (s.isMarkupMode = false →
        ¬(s.selection.isEditingText = true ∧ s.selection.id = some el.id) →
        el.id ≠ "" →
        (handlePointerUp (handlePointerMove trig (handlePointerDownElement s el false p) q)).past
            = s.past ++ [getCurrentState s]
        ∧ (handlePointerUp (handlePointerMove trig (handlePointerDownElement s el false p) q)).future
            = [])
    ∧ (s.selection.id = some selId → selId ≠ "" →
        (handlePointerUp (handlePointerMove trig (handlePointerDownResize s handle el p) q)).past
            = s.past ++ [getCurrentState s]
        ∧ (handlePointerUp (handlePointerMove trig (handlePointerDownRotate s el p) q)).past
            = s.past ++ [getCurrentState s])
    ∧ (s.isMarkupMode = true → pageId ≠ "" →
        (handlePointerUpMarkup (handlePointerDownMarkup s pageId p true) dataURL).past
            = s.past ++ [getCurrentState s]) := by
  refine ⟨⟨?_, ?_, ?_⟩, ?_, ?_, ?_⟩
  · -- down-element then up, no move
    by_cases hm : s.isMarkupMode = true
    · unfold handlePointerDownElement
      rw [if_pos hm]
      exact handlePointerUp_past_of_no_dragState s hidle
    · replace hm : s.isMarkupMode = false := by
        cases h : s.isMarkupMode
        · rfl
        · exact absurd h hm
      by_cases hedit : s.selection.isEditingText = true ∧ s.selection.id = some el.id
      · unfold handlePointerDownElement
        simp only [hm, Bool.false_eq_true, if_false, if_pos hedit]
        exact handlePointerUp_past_of_no_dragState _ hidle
      · rw [handlePointerDownElement_main s el p hm hedit]
        exact (handlePointerUp_not_interacted _ rfl).1
  · exact (handlePointerUp_not_interacted _ rfl).1
  · exact (handlePointerUp_not_interacted _ rfl).1
  · -- drag gesture with one move
    intro hm hedit hid
    rw [handlePointerDownElement_main s el p hm hedit]
    set sd : AppState :=
      { s with activePageId := el.pageId,
               selection := { id := some el.id, isEditingText := false },
               historySnapshot := some (getCurrentState s),
               dragInteracted := false,
               dragState := some { isDragging := true, isResizing := false, isRotating := false,
                                   resizeHandle := none, startX := p.1, startY := p.2,
                                   initialElement := el } } with hsd
    obtain ⟨hsel, -, hds, hhist, hpast, hfut⟩ := handlePointerMove_proj trig sd q
    have hint := handlePointerMove_interacted trig sd q _ el.id rfl rfl hid
    have hup := handlePointerUp_interacted (handlePointerMove trig sd q) _ (getCurrentState s)
      (by rw [hds]) (by rw [hhist]) hint
    rw [hup]
    constructor
    · show (handlePointerMove trig sd q).past ++ [getCurrentState s] = s.past ++ [getCurrentState s]
      rw [hpast]
    · rfl
  · -- resize / rotate gestures with one move
    intro hsel hne
    constructor
    · set sd := handlePointerDownResize s handle el p with hsd
      obtain ⟨hsel', -, hds, hhist, hpast, hfut⟩ := handlePointerMove_proj trig sd q
      have hint := handlePointerMove_interacted trig sd q _ selId rfl
        (by rw [hsd]; exact hsel) hne
      have hup := handlePointerUp_interacted (handlePointerMove trig sd q) _ (getCurrentState s)
        (by rw [hds]; exact rfl) (by rw [hhist]; exact rfl) hint
      rw [hup]
      show (handlePointerMove trig sd q).past ++ [getCurrentState s] = s.past ++ [getCurrentState s]
      rw [hpast]
      rfl
    · set sd := handlePointerDownRotate s el p with hsd
      obtain ⟨hsel', -, hds, hhist, hpast, hfut⟩ := handlePointerMove_proj trig sd q
      have hint := handlePointerMove_interacted trig sd q _ selId rfl
        (by rw [hsd]; exact hsel) hne
      have hup := handlePointerUp_interacted (handlePointerMove trig sd q) _ (getCurrentState s)
        (by rw [hds]; exact rfl) (by rw [hhist]; exact rfl) hint
      rw [hup]
      show (handlePointerMove trig sd q).past ++ [getCurrentState s] = s.past ++ [getCurrentState s]
      rw [hpast]
      rfl
  · -- ink stroke, no move
    intro hm hpid
    rw [handlePointerDownMarkup_main s pageId p hm]
    unfold handlePointerUpMarkup
    dsimp only
    rw [if_neg (by simp), if_pos hpid]
    cases dataURL <;> rfl

/-- A fixture element and state for the C3 witness. -/
def gestureEl : CanvasElement :=
  { id := "el1", pageId := "p1", type := ElementType.RECTANGLE,
    x := 100, y := 100, width := 160, height := 100 }

/-- A fixture state holding `gestureEl`, selected, markup mode off. -/
def gestureState : AppState :=
  { baseState with elements := [gestureEl],
                   selection := { id := some "el1", isEditingText := false } }

/-- Witness for C3 (amended) at concrete states: a moveless drag leaves
`past` empty, a drag with one move pushes the start snapshot, and a moveless
ink stroke also pushes its snapshot. -/
theorem gesture_history_push_amended_witness :
    (handlePointerUp (handlePointerDownElement gestureState gestureEl false (0, 0))).past = []
    ∧ (handlePointerUp (handlePointerMove trigZero
        (handlePointerDownElement gestureState gestureEl false (0, 0)) (5, 5))).past
        = [getCurrentState gestureState]
    ∧ (handlePointerUpMarkup (handlePointerDownMarkup inkState "p1" (0, 0) true)
        (some "url")).past = [getCurrentState inkState] := by
  have hA := gesture_history_push_amended trigZero gestureState gestureEl "se" "el1" "p1"
    (some "url") (0, 0) (5, 5) rfl
  have hB := gesture_history_push_amended trigZero inkState gestureEl "se" "el1" "p1"
    (some "url") (0, 0) (0, 0) rfl
  refine ⟨hA.1.1.trans rfl, ?_, ?_⟩
  · exact ((hA.2.1 rfl (by decide) (by decide)).1).trans (by rfl)
  · exact (hB.2.2.2 rfl (by decide)).trans (by rfl)


lemma clamp_lower (w d m : ℚ) : m ≤ w + (if w + d < m then m - w else d) := by
  by_cases h : w + d < m
  · rw [if_pos h]
    linarith
  · rw [if_neg h]
    linarith [not_lt.mp h]

lemma snap_lower (q : ℚ) (h : 20 ≤ q) : (20 : ℚ) ≤ (jround (q / 20) : ℚ) * 20 := by
  have h1 : (1 : ℤ) ≤ jround (q / 20) := by
    rw [jround_le_iff]
    have h2 : (1 : ℚ) ≤ q / 20 := by
      rw [le_div_iff (by norm_num : (0 : ℚ) < 20)]
      linarith
    push_cast
    linarith
  have h2 : (1 : ℚ) ≤ (jround (q / 20) : ℚ) := by exact_mod_cast h1
  nlinarith

/-- The two invariants of one resize computation: the resulting width and
height never fall below the minimum size, and with snapping enabled they are
exact grid multiples (the grid rounding runs after the clamp, with `dW`,
`dH` and the center shift recomputed from the snapped values). -/
lemma resizeGeom_spec (trig : Trig) (snapG : Bool) (initial : CanvasElement)
    (handle : Option String) (dx dy : ℚ) :
    (20 ≤ (resizeGeom trig snapG initial handle dx dy).w
      ∧ 20 ≤ (resizeGeom trig snapG initial handle dx dy).h)
    ∧ (snapG = true →
        (∃ k : ℤ, (resizeGeom trig snapG initial handle dx dy).w = (k : ℚ) * GRID_SIZE)
        ∧ (∃ k : ℤ, (resizeGeom trig snapG initial handle dx dy).h = (k : ℚ) * GRID_SIZE)) := by
  cases snapG with
  | false =>
      unfold resizeGeom
      dsimp only
      exact ⟨⟨clamp_lower _ _ _, clamp_lower _ _ _⟩, fun h => absurd h (by decide)⟩
  | true =>
      unfold resizeGeom
      dsimp only [GRID_SIZE]
      exact ⟨⟨snap_lower _ (clamp_lower _ _ _), snap_lower _ (clamp_lower _ _ _)⟩,
        fun _ => ⟨⟨_, rfl⟩, ⟨_, rfl⟩⟩⟩

/-- The resize branch of `handlePointerMove`, characterised: each element
with the selected id receives the geometry computed by `resizeGeom` from
the gesture's initial element and the pointer delta. -/
lemma handlePointerMove_resize (trig : Trig) (s : AppState) (coords : ℚ × ℚ)
    (ds : DragState) (selId : String)
    (h1 : s.dragState = some ds) (h2 : s.selection.id = some selId) (h3 : selId ≠ "")
    (h4 : ds.isDragging = false) (h5 : ds.isRotating = false) (h6 : ds.isResizing = true) :
    (handlePointerMove trig s coords).elements
      = s.elements.map (fun el =>
          if el.id == selId then
            { el with
              x := (resizeGeom trig s.snapToGrid ds.initialElement ds.resizeHandle
                      (coords.1 - ds.startX) (coords.2 - ds.startY)).x,
              y := (resizeGeom trig s.snapToGrid ds.initialElement ds.resizeHandle
                      (coords.1 - ds.startX) (coords.2 - ds.startY)).y,
              width := (resizeGeom trig s.snapToGrid ds.initialElement ds.resizeHandle
                      (coords.1 - ds.startX) (coords.2 - ds.startY)).w,
              height := (resizeGeom trig s.snapToGrid ds.initialElement ds.resizeHandle
                      (coords.1 - ds.startX) (coords.2 - ds.startY)).h }
          else el) := by
  unfold handlePointerMove
  split
  · rename_i ds' selId' hds' hsel'
    rw [h1] at hds'
    rw [h2] at hsel'
    obtain rfl : ds = ds' := by injection hds'
    obtain rfl : selId = selId' := by injection hsel'
    rw [if_neg h3, h4, h5]
    simp only [Bool.false_eq_true, if_false]
    rw [if_pos h6]
    rfl
  · rename_i hfail
    exact (hfail ds selId h1 h2).elim

/-- C5: every resize move yields a width and height at least the minimum
size (the grid size with snapping on, the fixed floor 20 otherwise) for
every corner handle, initial geometry, rotation and pointer delta; with
snapping on, the final width and height are additionally exact grid
multiples. -/
theorem resize_min_size_and_grid (trig : Trig) (s : AppState) (ds : DragState) (selId : String)
    (p : ℚ × ℚ)
    (hds : s.dragState = some ds) (hsel : s.selection.id = some selId) (hne : selId ≠ "")
    (hdrag : ds.isDragging = false) (hrot : ds.isRotating = false) (hres : ds.isResizing = true)
    (hhandle : ds.resizeHandle = some "se" ∨ ds.resizeHandle = some "sw"
        ∨ ds.resizeHandle = some "ne" ∨ ds.resizeHandle = some "nw") :
    ∀ e ∈ (handlePointerMove trig s p).elements, e.id = selId →
      ((if s.snapToGrid then GRID_SIZE else 20) ≤ e.width
        ∧ (if s.snapToGrid then GRID_SIZE else 20) ≤ e.height)
      ∧ (s.snapToGrid = true →
          (∃ k : ℤ, e.width = (k : ℚ) * GRID_SIZE)
          ∧ (∃ k : ℤ, e.height = (k : ℚ) * GRID_SIZE)) := by
  rw [handlePointerMove_resize trig s p ds selId hds hsel hne hdrag hrot hres]
  intro e he hid
  obtain ⟨e0, he0, heq⟩ := List.mem_map.mp he
  by_cases h0 : (e0.id == selId) = true
  · rw [if_pos h0] at heq
    subst heq
    obtain ⟨⟨hw, hh⟩, hsnap⟩ := resizeGeom_spec trig s.snapToGrid ds.initialElement
      ds.resizeHandle (p.1 - ds.startX) (p.2 - ds.startY)
    have hmin : (if s.snapToGrid then GRID_SIZE else 20) = (20 : ℚ) := by
      cases s.snapToGrid <;> simp [GRID_SIZE]
    rw [hmin]
    exact ⟨⟨hw, hh⟩, hsnap⟩
  · rw [if_neg h0] at heq
    subst heq
    exact absurd (beq_iff_eq.mpr hid) h0

lemma headD_mem {α : Type} (l : List α) (d : α) (h : l ≠ []) : l.headD d ∈ l := by
  cases l
  · exact absurd rfl h
  · exact List.mem_cons_self _ _

/-- Fixture element for the C5 witness. -/
def w5el : CanvasElement :=
  { id := "el1", pageId := "p1", type := ElementType.RECTANGLE,
    x := 100, y := 100, width := 160, height := 100, rotation := some 0 }

/-- Fixture drag state for the C5 witness: an active `se` resize. -/
def w5ds : DragState :=
  { isDragging := false, isResizing := true, isRotating := false,
    resizeHandle := some "se", startX := 0, startY := 0, initialElement := w5el }

/-- Fixture app state for the C5 witness: snapping on, mid-resize. -/
def w5state : AppState :=
  { baseState with snapToGrid := true, elements := [w5el],
                   selection := { id := some "el1", isEditingText := false },
                   dragState := some w5ds,
                   historySnapshot := some (getCurrentState baseState) }

/-- Witness for C5 at a concrete resize move. -/
theorem resize_min_size_and_grid_witness :
    GRID_SIZE ≤ ((handlePointerMove trigZero w5state (3, 4)).elements.headD w5el).width
    ∧ ∃ k : ℤ, ((handlePointerMove trigZero w5state (3, 4)).elements.headD w5el).width
        = (k : ℚ) * GRID_SIZE := by
  have h := resize_min_size_and_grid trigZero w5state w5ds "el1" (3, 4) rfl rfl (by decide)
    rfl rfl rfl (Or.inl rfl)
  have hne2 : (handlePointerMove trigZero w5state (3, 4)).elements ≠ [] := by
    intro hc
    have hlen : (handlePointerMove trigZero w5state (3, 4)).elements.length = 1 := rfl
    rw [hc] at hlen
    exact absurd hlen (by decide)
  have h2 := h _ (headD_mem _ w5el hne2) rfl
  exact ⟨h2.1.1, (h2.2 rfl).1⟩


lemma rotatePoint_inv (trig : Trig) (a b θ : ℚ)
    (hcc : trig.cos (-θ) = trig.cos θ) (hss : trig.sin (-θ) = -trig.sin θ)
    (hunit : trig.cos θ * trig.cos θ + trig.sin θ * trig.sin θ = 1) :
    rotatePoint trig (rotatePoint trig a b θ).1 (rotatePoint trig a b θ).2 (-θ) = (a, b) := by
  unfold rotatePoint
  dsimp only
  rw [hcc, hss, Prod.mk.injEq]
  constructor
  · linear_combination a * hunit
  · linear_combination b * hunit

/-- One `se`-handle resize with snapping off and the clamp not engaged, on
an element rotated by θ, characterised in closed form. -/
lemma resizeGeom_se_no_clamp (trig : Trig) (init : CanvasElement) (a b θ : ℚ)
    (hrot : init.rotation = some θ)
    (hcc : trig.cos (-θ) = trig.cos θ) (hss : trig.sin (-θ) = -trig.sin θ)
    (hunit : trig.cos θ * trig.cos θ + trig.sin θ * trig.sin θ = 1)
    (hW : 20 ≤ init.width + a) (hH : 20 ≤ init.height + b) :
    resizeGeom trig false init (some "se")
        (rotatePoint trig a b θ).1 (rotatePoint trig a b θ).2
      = { x := init.x + init.width / 2
              + (rotatePoint trig (a / 2) (b / 2) θ).1 - (init.width + a) / 2,
          y := init.y + init.height / 2
              + (rotatePoint trig (a / 2) (b / 2) θ).2 - (init.height + b) / 2,
          w := init.width + a, h := init.height + b } := by
  unfold resizeGeom
  rw [hrot]
  dsimp only [Option.getD_some]
  rw [rotatePoint_inv trig a b θ hcc hss hunit]
  simp only [Bool.false_eq_true, if_false, deltaWFor_se, deltaHFor_se, shiftFor_se]
  rw [if_neg (not_lt.mpr hW), if_neg (not_lt.mpr hH)]

/-- A full resize gesture (pointer-down on a handle, one move, pointer-up)
maps each element carrying the selected id to the `resizeGeom` geometry. -/
lemma resize_gesture_elements (trig : Trig) (s : AppState) (el : CanvasElement)
    (handle : String) (p c : ℚ × ℚ)
    (hsel : s.selection.id = some el.id) (hne : el.id ≠ "") :
    (handlePointerUp (handlePointerMove trig (handlePointerDownResize s handle el p) c)).elements
      = s.elements.map (fun e =>
          if e.id == el.id then
            { e with
              x := (resizeGeom trig s.snapToGrid el (some handle) (c.1 - p.1) (c.2 - p.2)).x,
              y := (resizeGeom trig s.snapToGrid el (some handle) (c.1 - p.1) (c.2 - p.2)).y,
              width := (resizeGeom trig s.snapToGrid el (some handle) (c.1 - p.1) (c.2 - p.2)).w,
              height := (resizeGeom trig s.snapToGrid el (some handle) (c.1 - p.1) (c.2 - p.2)).h }
          else e) := by
  rw [(handlePointerUp_proj _).1]
  exact handlePointerMove_resize trig _ c
    { isDragging := false, isRotating := false, isResizing := true, resizeHandle := some handle,
      startX := p.1, startY := p.2, initialElement := el } el.id rfl hsel hne rfl rfl rfl

/-- C6: resize is self-inverse under rotation.  For an object at rotation
45° (snapping off, clamp not engaged), a resize gesture via the `se` handle
with local delta `(a, b)` followed by one with local delta `(-a, -b)`
restores the original `x`, `y`, `width`, `height` exactly (the rational
model is exact, which subsumes the claimed floating tolerance).  The
cosine/sine of 45° enter as the abstract parameters `trig.cos 45`,
`trig.sin 45`, constrained by the parity and unit-circle identities the
real functions satisfy; the world-frame pointer delta realising local delta
`(a, b)` is `rotatePoint trig a b 45`. -/
theorem rotation_resize_roundtrip (trig : Trig) (s : AppState) (el : CanvasElement) (a b : ℚ)
    (p0 q0 : ℚ × ℚ)
    (hrot : el.rotation = some 45)
    (hcc : trig.cos (-45) = trig.cos 45)
    (hss : trig.sin (-45) = -trig.sin 45)
    (hunit : trig.cos 45 * trig.cos 45 + trig.sin 45 * trig.sin 45 = 1)
    (hsnap : s.snapToGrid = false)
    (hsel : s.selection.id = some el.id) (hne : el.id ≠ "")
    (hw : 20 ≤ el.width) (hh : 20 ≤ el.height)
    (hwa : 20 ≤ el.width + a) (hhb : 20 ≤ el.height + b)
    (huniq : ∀ e ∈ s.elements, e.id = el.id → e = el) :
    ∀ e1 ∈ (handlePointerUp (handlePointerMove trig (handlePointerDownResize s "se" el p0)
        (p0.1 + (rotatePoint trig a b 45).1, p0.2 + (rotatePoint trig a b 45).2))).elements,
      e1.id = el.id →
      ∀ e2 ∈ (handlePointerUp (handlePointerMove trig
          (handlePointerDownResize
            (handlePointerUp (handlePointerMove trig (handlePointerDownResize s "se" el p0)
              (p0.1 + (rotatePoint trig a b 45).1, p0.2 + (rotatePoint trig a b 45).2)))
            "se" e1 q0)
          (q0.1 + (rotatePoint trig (-a) (-b) 45).1,
            q0.2 + (rotatePoint trig (-a) (-b) 45).2))).elements,
        e2.id = el.id →
        e2.x = el.x ∧ e2.y = el.y ∧ e2.width = el.width ∧ e2.height = el.height := by
  have hg1 : resizeGeom trig s.snapToGrid el (some "se")
        ((p0.1 + (rotatePoint trig a b 45).1, p0.2 + (rotatePoint trig a b 45).2).1 - p0.1)
        ((p0.1 + (rotatePoint trig a b 45).1, p0.2 + (rotatePoint trig a b 45).2).2 - p0.2)
      = { x := el.x + el.width / 2
              + (rotatePoint trig (a / 2) (b / 2) 45).1 - (el.width + a) / 2,
          y := el.y + el.height / 2
              + (rotatePoint trig (a / 2) (b / 2) 45).2 - (el.height + b) / 2,
          w := el.width + a, h := el.height + b } := by
    dsimp only
    rw [hsnap, show p0.1 + (rotatePoint trig a b 45).1 - p0.1 = (rotatePoint trig a b 45).1
        from by ring,
      show p0.2 + (rotatePoint trig a b 45).2 - p0.2 = (rotatePoint trig a b 45).2 from by ring]
    exact resizeGeom_se_no_clamp trig el a b 45 hrot hcc hss hunit hwa hhb
  intro e1 he1 hid1
  rw [resize_gesture_elements trig s el "se" p0 _ hsel hne] at he1
  obtain ⟨e0, he0, heq1⟩ := List.mem_map.mp he1
  by_cases h0 : (e0.id == el.id) = true
  swap
  · rw [if_neg h0] at heq1
    subst heq1
    exact absurd (beq_iff_eq.mpr hid1) h0
  rw [if_pos h0] at heq1
  rw [huniq e0 he0 (beq_iff_eq.mp h0)] at heq1
  subst heq1
  rw [hg1]
  set s1 := handlePointerUp (handlePointerMove trig (handlePointerDownResize s "se" el p0)
      (p0.1 + (rotatePoint trig a b 45).1, p0.2 + (rotatePoint trig a b 45).2)) with hs1
  set E1 : CanvasElement :=
    { el with
      x := el.x + el.width / 2 + (rotatePoint trig (a / 2) (b / 2) 45).1 - (el.width + a) / 2,
      y := el.y + el.height / 2 + (rotatePoint trig (a / 2) (b / 2) 45).2 - (el.height + b) / 2,
      width := el.width + a, height := el.height + b } with hE1
  intro e2 he2 hid2
  have hsel1 : s1.selection.id = some E1.id := by
    rw [hs1, (handlePointerUp_proj _).2.1, (handlePointerMove_proj _ _ _).1]
    exact hsel
  have hsnap1 : s1.snapToGrid = false := by
    rw [hs1, (handlePointerUp_proj _).2.2.1, (handlePointerMove_proj _ _ _).2.1]
    exact hsnap
  have hg2 : resizeGeom trig s1.snapToGrid E1 (some "se")
        ((q0.1 + (rotatePoint trig (-a) (-b) 45).1,
            q0.2 + (rotatePoint trig (-a) (-b) 45).2).1 - q0.1)
        ((q0.1 + (rotatePoint trig (-a) (-b) 45).1,
            q0.2 + (rotatePoint trig (-a) (-b) 45).2).2 - q0.2)
      = { x := E1.x + E1.width / 2
              + (rotatePoint trig (-a / 2) (-b / 2) 45).1 - (E1.width + -a) / 2,
          y := E1.y + E1.height / 2
              + (rotatePoint trig (-a / 2) (-b / 2) 45).2 - (E1.height + -b) / 2,
          w := E1.width + -a, h := E1.height + -b } := by
    dsimp only
    rw [hsnap1,
      show q0.1 + (rotatePoint trig (-a) (-b) 45).1 - q0.1 = (rotatePoint trig (-a) (-b) 45).1
        from by ring,
      show q0.2 + (rotatePoint trig (-a) (-b) 45).2 - q0.2 = (rotatePoint trig (-a) (-b) 45).2
        from by ring]
    have hW2 : 20 ≤ E1.width + -a := by
      rw [hE1]
      dsimp only
      linarith
    have hH2 : 20 ≤ E1.height + -b := by
      rw [hE1]
      dsimp only
      linarith
    have hrot1 : E1.rotation = some 45 := by
      rw [hE1]
      exact hrot
    exact resizeGeom_se_no_clamp trig E1 (-a) (-b) 45 hrot1 hcc hss hunit hW2 hH2
  have hne1 : E1.id ≠ "" := hne
  rw [resize_gesture_elements trig s1 E1 "se" q0 _ hsel1 hne1] at he2
  have hels1 : s1.elements = s.elements.map (fun e => if e.id == el.id then E1 else e) := by
    rw [hs1, resize_gesture_elements trig s el "se" p0 _ hsel hne]
    refine List.map_congr_left ?_
    intro e he
    by_cases hcase : (e.id == el.id) = true
    · rw [if_pos hcase, if_pos hcase]
      rw [huniq e he (beq_iff_eq.mp hcase)]
      rw [hg1]
    · rw [if_neg hcase, if_neg hcase]
  rw [hels1, List.map_map] at he2
  obtain ⟨ea, hea, heq2⟩ := List.mem_map.mp he2
  by_cases hcase : (ea.id == el.id) = true
  swap
  · rw [Function.comp_apply, if_neg hcase,
      if_neg (show ¬(ea.id == E1.id) = true from fun hh => hcase hh)] at heq2
    subst heq2
    exact absurd (beq_iff_eq.mpr hid2) hcase
  · rw [Function.comp_apply, if_pos hcase,
      if_pos (show (E1.id == E1.id) = true from beq_self_eq_true _)] at heq2
    subst heq2
    rw [hg2]
    rw [hE1]
    unfold rotatePoint
    dsimp only
    refine ⟨by ring, by ring, by ring, by ring⟩

/-- A unit-circle instantiation of the trig parameters at 45 and -45 degrees using
the rational point (3/5, 4/5); it satisfies the parity and unit-circle
identities the round-trip theorem assumes. -/
def trig45 : Trig :=
  { cos := fun angle => if angle = 45 ∨ angle = -45 then 3 / 5 else 1,
    sin := fun angle => if angle = 45 then 4 / 5 else if angle = -45 then -(4 / 5) else 0,
    atan2deg := fun _ _ => 0 }

lemma trig45_cos_even : trig45.cos (-45) = trig45.cos 45 := by
  norm_num [trig45]

lemma trig45_sin_odd : trig45.sin (-45) = -trig45.sin 45 := by
  norm_num [trig45]

lemma trig45_unit :
    trig45.cos 45 * trig45.cos 45 + trig45.sin 45 * trig45.sin 45 = 1 := by
  norm_num [trig45]

/-- Fixture element for the C6 witness: rotated 45°. -/
def w6el : CanvasElement :=
  { id := "el1", pageId := "p1", type := ElementType.RECTANGLE,
    x := 10, y := 20, width := 30, height := 40, rotation := some 45 }

/-- Size bounds of the C6 witness fixture (clamp never engages). -/
lemma w6bounds : (20 : ℚ) ≤ 30 ∧ (20 : ℚ) ≤ 40 ∧ (20 : ℚ) ≤ 30 + 8 ∧ (20 : ℚ) ≤ 40 + 4 := by
  norm_num

/-- Fixture state for the C6 witness. -/
def w6state : AppState :=
  { baseState with elements := [w6el],
                   selection := { id := some "el1", isEditingText := false } }

/-- The first `se` resize gesture of the C6 witness (local delta (8, 4)). -/
def w6gesture1 : AppState :=
  handlePointerUp (handlePointerMove trig45 (handlePointerDownResize w6state "se" w6el (0, 0))
    ((0 : ℚ) + (rotatePoint trig45 8 4 45).1, (0 : ℚ) + (rotatePoint trig45 8 4 45).2))

/-- The element after the first gesture of the C6 witness. -/
def w6e1 : CanvasElement := w6gesture1.elements.headD w6el

/-- The second `se` resize gesture of the C6 witness (local delta (-8, -4)). -/
def w6gesture2 : AppState :=
  handlePointerUp (handlePointerMove trig45 (handlePointerDownResize w6gesture1 "se" w6e1 (0, 0))
    ((0 : ℚ) + (rotatePoint trig45 (-8) (-4) 45).1,
      (0 : ℚ) + (rotatePoint trig45 (-8) (-4) 45).2))

/-- Witness for C6 at a concrete 45°-rotated element and concrete deltas. -/
theorem rotation_resize_roundtrip_witness :
    (w6gesture2.elements.headD w6el).x = 10 ∧ (w6gesture2.elements.headD w6el).y = 20
    ∧ (w6gesture2.elements.headD w6el).width = 30
    ∧ (w6gesture2.elements.headD w6el).height = 40 := by
  have h := rotation_resize_roundtrip trig45 w6state w6el 8 4 (0, 0) (0, 0) rfl
    trig45_cos_even trig45_sin_odd trig45_unit rfl rfl (by decide)
    w6bounds.1 w6bounds.2.1 w6bounds.2.2.1 w6bounds.2.2.2
    (fun e he _ => List.mem_singleton.mp he)
  have hne1 : w6gesture1.elements ≠ [] := by
    intro hc
    have hlen : w6gesture1.elements.length = 1 := rfl
    rw [hc] at hlen
    exact absurd hlen (by decide)
  have h2 := h w6e1 (headD_mem _ w6el hne1) rfl
  have hne2 : w6gesture2.elements ≠ [] := by
    intro hc
    have hlen : w6gesture2.elements.length = 1 := rfl
    rw [hc] at hlen
    exact absurd hlen (by decide)
  exact h2 (w6gesture2.elements.headD w6el) (headD_mem _ w6el hne2) rfl


lemma findIndexJS_nonneg_of_mem {α : Type} (p : α → Bool) (l : List α)
    (h : ∃ x ∈ l, p x = true) : 0 ≤ findIndexJS p l := by
  induction l with
  | nil => simp at h
  | cons a tl ih =>
      unfold findIndexJS
      by_cases ha : p a = true
      · rw [if_pos ha]
      · rw [if_neg ha]
        obtain ⟨x, hx, hpx⟩ := h
        rcases List.mem_cons.mp hx with rfl | hx'
        · exact absurd hpx ha
        · have h0 := ih ⟨x, hx', hpx⟩
          rw [if_neg (not_lt.mpr h0)]
          omega

lemma findIndexJS_spec (l : List Page) : ∀ (i : ℕ) (pg : Page),
    l.get? i = some pg → (l.map Page.id).Nodup →
    findIndexJS (fun p => p.id == pg.id) l = (i : ℤ) := by
  induction l with
  | nil => intro i pg h _; simp at h
  | cons p0 tl ih =>
      intro i pg hget hnodup
      rw [List.map_cons, List.nodup_cons] at hnodup
      cases i with
      | zero =>
          obtain rfl : p0 = pg := by
            simpa using hget
          unfold findIndexJS
          rw [if_pos (beq_self_eq_true _)]
          simp
      | succ j =>
          have hget' : tl.get? j = some pg := by simpa using hget
          have hmem : pg ∈ tl := by
            have := List.get?_eq_some.mp hget'
            obtain ⟨hj, hjeq⟩ := this
            exact hjeq ▸ List.get_mem tl j hj
          have hne : (p0.id == pg.id) = false := by
            rw [beq_eq_false_iff_ne]
            intro he
            exact hnodup.1 (he ▸ List.mem_map_of_mem Page.id hmem)
          have hrec := ih j pg hget' hnodup.2
          unfold findIndexJS
          rw [hne, if_neg Bool.false_ne_true, hrec, if_neg (by omega)]
          push_cast
          ring

lemma filter_ne_of_get (l : List Page) : ∀ (i : ℕ) (pg : Page),
    l.get? i = some pg → (l.map Page.id).Nodup →
    l.filter (fun p => p.id != pg.id) = l.take i ++ l.drop (i + 1) := by
  induction l with
  | nil => intro i pg h _; simp at h
  | cons p0 tl ih =>
      intro i pg hget hnodup
      rw [List.map_cons, List.nodup_cons] at hnodup
      cases i with
      | zero =>
          obtain rfl : p0 = pg := by simpa using hget
          rw [List.filter_cons_of_neg (by simp)]
          rw [List.filter_eq_self.mpr ?_]
          · simp
          · intro q hq
            rw [bne_iff_ne]
            intro he
            exact hnodup.1 (he ▸ List.mem_map_of_mem Page.id hq)
      | succ j =>
          have hget' : tl.get? j = some pg := by simpa using hget
          have hmem : pg ∈ tl := by
            obtain ⟨hj, hjeq⟩ := List.get?_eq_some.mp hget'
            exact hjeq ▸ List.get_mem tl j hj
          have hne : p0.id ≠ pg.id := by
            intro he
            exact hnodup.1 (he ▸ List.mem_map_of_mem Page.id hmem)
          rw [List.filter_cons_of_pos (by rw [bne_iff_ne]; exact hne)]
          rw [ih j pg hget' hnodup.2]
          simp [List.take_succ_cons, List.drop_succ_cons]

lemma find?_filter_of_imp {α : Type} (l : List α) (p q : α → Bool)
    (h : ∀ x, p x = true → q x = true) :
    (l.filter q).find? p = l.find? p := by
  induction l with
  | nil => rfl
  | cons a tl ih =>
      by_cases hq : q a = true
      · rw [List.filter_cons_of_pos hq]
        by_cases hp : p a = true
        · rw [List.find?_cons_of_pos _ hp, List.find?_cons_of_pos _ hp]
        · rw [List.find?_cons_of_neg _ (by simpa using hp),
            List.find?_cons_of_neg _ (by simpa using hp)]
          exact ih
      · have hp : p a = false := by
          cases hpa : p a
          · rfl
          · exact absurd (h a hpa) hq
        rw [List.filter_cons_of_neg (by simpa using hq), ih,
          List.find?_cons_of_neg _ (by simp [hp])]

lemma recordGet_recordDelete_self (m : List (String × String)) (k : String) :
    recordGet (recordDelete m k) k = none := by
  unfold recordGet recordDelete
  rw [List.find?_eq_none.mpr ?_]
  · rfl
  · intro x hx
    have h2 := List.of_mem_filter hx
    rw [bne_iff_ne] at h2
    simp [h2]

lemma recordGet_recordDelete_other (m : List (String × String)) (k q : String) (hne : q ≠ k) :
    recordGet (recordDelete m k) q = recordGet m q := by
  unfold recordGet recordDelete
  rw [find?_filter_of_imp]
  intro x hx
  rw [beq_iff_eq] at hx
  rw [bne_iff_ne, hx]
  exact hne

lemma confirmRemovePage_spec (s : AppState) (h : ¬ s.pages.length ≤ 1) :
    confirmRemovePage s =
      { saveHistory s with
        pages := s.pages.filter (fun p => p.id != s.activePageId),
        activePageId := ((s.pages.filter (fun p => p.id != s.activePageId)).getD
          (max 0 (findIndexJS (fun p => p.id == s.activePageId) s.pages - 1)).toNat
          { id := "" }).id,
        elements := s.elements.filter (fun el => el.pageId != s.activePageId),
        markupData := recordDelete s.markupData s.activePageId } := by
  unfold confirmRemovePage
  rw [if_neg h]
  rfl

/-- C4: removing a page with at least two pages present removes exactly the
active page, cascades deletion of exactly its elements and its ink-map
entry (everything else untouched), and reassigns the active page id to the
page at the preceding index — or to the page at index 1 (the new first
page) when the removed page was at index 0.  Removing the last remaining
page is refused and changes nothing. -/
theorem remove_page_cascade (s : AppState) (i : ℕ) (pg : Page)
    (h2 : 2 ≤ s.pages.length)
    (hget : s.pages.get? i = some pg)
    (hpg : pg.id = s.activePageId)
    (hnodup : (s.pages.map Page.id).Nodup) :
    (confirmRemovePage s).pages = s.pages.take i ++ s.pages.drop (i + 1)
    ∧ (∀ e : CanvasElement, e ∈ (confirmRemovePage s).elements ↔
        (e ∈ s.elements ∧ e.pageId ≠ s.activePageId))
    ∧ recordGet (confirmRemovePage s).markupData s.activePageId = none
    ∧ (∀ k, k ≠ s.activePageId →
        recordGet (confirmRemovePage s).markupData k = recordGet s.markupData k)
    ∧ (confirmRemovePage s).activePageId
        = ((s.pages.get? (if i = 0 then 1 else i - 1)).getD { id := "" }).id
    ∧ (∀ s' : AppState, s'.pages.length = 1 → confirmRemovePage s' = s') := by
  have hle : ¬ s.pages.length ≤ 1 := by omega
  have hspec := confirmRemovePage_spec s hle
  have hilt : i < s.pages.length := (List.get?_eq_some.mp hget).1
  have hfilter : s.pages.filter (fun p => p.id != s.activePageId)
      = s.pages.take i ++ s.pages.drop (i + 1) := by
    rw [← hpg]
    exact filter_ne_of_get s.pages i pg hget hnodup
  have hidx : findIndexJS (fun p => p.id == s.activePageId) s.pages = (i : ℤ) := by
    rw [← hpg]
    exact findIndexJS_spec s.pages i pg hget hnodup
  refine ⟨?_, ?_, ?_, ?_, ?_, ?_⟩
  · rw [hspec]
    exact hfilter
  · intro e
    rw [hspec]
    show e ∈ s.elements.filter (fun el => el.pageId != s.activePageId) ↔ _
    rw [List.mem_filter, bne_iff_ne]
  · rw [hspec]
    exact recordGet_recordDelete_self s.markupData s.activePageId
  · intro k hk
    rw [hspec]
    exact recordGet_recordDelete_other s.markupData s.activePageId k hk
  · rw [hspec]
    show ((s.pages.filter (fun p => p.id != s.activePageId)).getD
        (max 0 (findIndexJS (fun p => p.id == s.activePageId) s.pages - 1)).toNat
        { id := "" }).id = _
    rw [hidx, hfilter]
    cases i with
    | zero =>
        rw [show (max (0 : ℤ) (((0 : ℕ) : ℤ) - 1)).toNat = 0 from by omega]
        rw [if_pos rfl]
        rw [List.getD_eq_getElem?_getD]
        rw [show ((s.pages.take 0 ++ s.pages.drop (0 + 1)) : List Page) = s.pages.drop 1 by simp]
        rw [List.getElem?_drop]
        rw [List.get?_eq_getElem?]
    | succ j =>
        rw [show (max (0 : ℤ) (((j + 1 : ℕ) : ℤ) - 1)).toNat = j from by omega]
        rw [if_neg (Nat.succ_ne_zero j)]
        rw [List.getD_eq_getElem?_getD]
        have hjlt : j < (s.pages.take (j + 1)).length := by
          rw [List.length_take]
          omega
        rw [List.getElem?_append_left hjlt]
        rw [List.getElem?_take_of_lt (by omega)]
        rw [show ((j + 1 : ℕ) - 1 : ℕ) = j from by omega]
        rw [List.get?_eq_getElem?]
  · intro s' hs'
    unfold confirmRemovePage
    rw [if_pos (by omega)]

/-- Fixture state for the C4 witness: two pages with the second active, one
element and one ink entry on each page. -/
def w4state : AppState :=
  { baseState with
    pages := [{ id := "p1" }, { id := "p2" }],
    activePageId := "p2",
    elements := [{ id := "e1", pageId := "p1", type := ElementType.TEXT,
                   x := 0, y := 0, width := 50, height := 50 },
                 { id := "e2", pageId := "p2", type := ElementType.TEXT,
                   x := 0, y := 0, width := 50, height := 50 }],
    markupData := [("p1", "ink1"), ("p2", "ink2")] }

/-- Witness for C4 at a concrete two-page document (active page removed at
index 1). -/
theorem remove_page_cascade_witness :
    (confirmRemovePage w4state).pages = [{ id := "p1" }]
    ∧ recordGet (confirmRemovePage w4state).markupData "p2" = none
    ∧ recordGet (confirmRemovePage w4state).markupData "p1" = recordGet w4state.markupData "p1"
    ∧ (confirmRemovePage w4state).activePageId = "p1" := by
  have h := remove_page_cascade w4state 1 { id := "p2" } (by decide) rfl rfl (by decide)
  refine ⟨?_, h.2.2.1, h.2.2.2.1 "p1" (by decide), ?_⟩
  · rw [h.1]
    rfl
  · rw [h.2.2.2.2.1]
    rfl


end EngPaper
